import Mathlib

/-!
Verification of the women's-imprisonment PFA (Police Force Area) data
pipeline against its specification.

The repository processes Ministry of Justice sentencing-outcome extracts and
ONS population estimates into PFA-level imprisonment-rate tables.  Tables are
modelled as lists of typed rows; each pipeline stage is a pure function on
such lists.  Where a processing module is not present in the repository
snapshot (only its configuration, documentation and notebook callers are),
the corresponding definition is modelled from the specification and marked as
such in its doc comment.
-/

namespace WomensPFA

/-! ## Python dict model (insertion-ordered association list, unique keys)

Used to embed the query-parameter handling of the notebook function
request_to_gdf, which mutates its caller's dictionary in place. -/

/-- Assignment d[k] = v on a Python dict: replaces the value at the first
occurrence of the key in place, or appends the pair when the key is absent. -/
def dictSet : List (String × String) → String → String → List (String × String)
  | [], k, v => [(k, v)]
  | p :: d, k, v => if p.1 = k then (k, v) :: d else p :: dictSet d k v

/-- Lookup d[k] on a Python dict. -/
def dictGet (d : List (String × String)) (k : String) : Option String :=
  (d.find? (fun p => p.1 == k)).map (fun p => p.2)

/-- The GET request issued by the requests library: url plus the params dict. -/
structure GetRequest where
  url : String
  params : List (String × String)
deriving DecidableEq, Repr

/-- Parameter handling of request_to_gdf from
notebooks/raw_data/0.3-ah-download-ons-la-pfa.ipynb: the function first runs
the statement setting key f of query_params to the string geoJSON (a mutation
of the caller's dictionary), then issues requests.get with that same
dictionary.  The embedding returns the issued request together with the
caller-visible dictionary after the call. -/
def request_to_gdf (url : String) (query_params : List (String × String)) :
    GetRequest × List (String × String) :=
  let qp := dictSet query_params "f" "geoJSON"
  ({ url := url, params := qp }, qp)

/-- The ons_pfa_params configuration value from config.yaml (the outSR number
4326 is rendered as a string in this embedding, which only inspects key f). -/
def ons_pfa_params : List (String × String) :=
  [("where", "1=1"),
   ("outFields", "LAD24CD,LAD24NM,PFA24CD,PFA24NM"),
   ("outSR", "4326"),
   ("f", "json")]

theorem dictGet_dictSet (d : List (String × String)) (k v : String) :
    dictGet (dictSet d k v) k = some v := by
  induction d with
  | nil => simp [dictSet, dictGet]
  | cons p d ih =>
    by_cases h : p.1 = k
    · simp [dictSet, h, dictGet]
    · simpa [dictSet, h, dictGet, List.find?] using ih

/-! ## Sentencing data model -/

/-- One row of the unified outcomes-by-offence extract after column renaming
(columns as in the notebook: year, pfa, sex, age_group, offence, outcome,
sentence_len, freq). -/
structure SentencingRow where
  year : Int
  pfa : String
  sex : String
  age_group : String
  offence : String
  outcome : String
  sentence_len : String
  freq : Nat
deriving DecidableEq, Repr

/-- Column access by configuration column name, as the pandas filter indexes
df by the column label taken from config.yaml. -/
def SentencingRow.getCol (r : SentencingRow) : String → String
  | "pfa" => r.pfa
  | "sex" => r.sex
  | "age_group" => r.age_group
  | "offence" => r.offence
  | "outcome" => r.outcome
  | "sentence_len" => r.sentence_len
  | _ => ""

/-- One configured per-column filter: a column name and its value set. -/
abbrev ColFilter := String × List String

/-- Modelled from the spec: filter_sentence_type.filter_dataframe is not in
the repository snapshot (only its notebook caller and its configuration are).
Per the spec, an include filter keeps rows whose value for a column is in the
allowed set, an exclude filter drops rows whose value is in the forbidden
set, and the per-column filters are applied in sequence, conjunctively. -/
def applyIncludeFilters (df : List SentencingRow) (fs : List ColFilter) :
    List SentencingRow :=
  fs.foldl (fun d cv => d.filter (fun r => cv.2.contains (r.getCol cv.1))) df

/-- Modelled from the spec: the exclude half of filter_dataframe (see
applyIncludeFilters). -/
def applyExcludeFilters (df : List SentencingRow) (fs : List ColFilter) :
    List SentencingRow :=
  fs.foldl (fun d cv => d.filter (fun r => !cv.2.contains (r.getCol cv.1))) df

/-- Modelled from the spec: filter_dataframe applies every configured include
filter and then every configured exclude filter. -/
def filter_dataframe (df : List SentencingRow) (inc exc : List ColFilter) :
    List SentencingRow :=
  applyExcludeFilters (applyIncludeFilters df inc) exc

/-- The include half of the outcomes_by_offence_filter value in config.yaml. -/
def outcomes_by_offence_filter_include : List ColFilter :=
  [("sex", ["Female"]),
   ("outcome", ["Immediate Custody", "Community Sentence", "Suspended Sentence"]),
   ("age_group", ["Adults", "Young adults"])]

/-- The exclude half of the outcomes_by_offence_filter value in config.yaml. -/
def outcomes_by_offence_filter_exclude : List ColFilter :=
  [("pfa", ["Not known"])]

theorem mem_applyIncludeFilters (df : List SentencingRow) (fs : List ColFilter)
    (r : SentencingRow) :
    r ∈ applyIncludeFilters df fs ↔
      r ∈ df ∧ ∀ cv ∈ fs, (cv.2.contains (r.getCol cv.1)) = true := by
  induction fs generalizing df with
  | nil => simp [applyIncludeFilters]
  | cons cv fs ih =>
    simp only [applyIncludeFilters, List.foldl_cons] at *
    rw [ih]
    simp only [List.mem_filter, List.mem_cons]
    constructor
    · rintro ⟨⟨hdf, hcv⟩, hall⟩
      exact ⟨hdf, fun c hc => by rcases hc with rfl | hc; exact hcv; exact hall c hc⟩
    · rintro ⟨hdf, hall⟩
      exact ⟨⟨hdf, hall cv (Or.inl rfl)⟩, fun c hc => hall c (Or.inr hc)⟩

theorem mem_applyExcludeFilters (df : List SentencingRow) (fs : List ColFilter)
    (r : SentencingRow) :
    r ∈ applyExcludeFilters df fs ↔
      r ∈ df ∧ ∀ cv ∈ fs, (cv.2.contains (r.getCol cv.1)) = false := by
  induction fs generalizing df with
  | nil => simp [applyExcludeFilters]
  | cons cv fs ih =>
    simp only [applyExcludeFilters, List.foldl_cons] at *
    rw [ih]
    simp only [List.mem_filter, List.mem_cons, Bool.not_eq_true', Bool.not_eq_eq_eq_not]
    constructor
    · rintro ⟨⟨hdf, hcv⟩, hall⟩
      refine ⟨hdf, fun c hc => ?_⟩
      rcases hc with rfl | hc
      · simpa using hcv
      · exact hall c hc
    · rintro ⟨hdf, hall⟩
      exact ⟨⟨hdf, by simpa using hall cv (Or.inl rfl)⟩, fun c hc => hall c (Or.inr hc)⟩

theorem mem_filter_dataframe (df : List SentencingRow) (inc exc : List ColFilter)
    (r : SentencingRow) :
    r ∈ filter_dataframe df inc exc ↔
      r ∈ df ∧ (∀ cv ∈ inc, (cv.2.contains (r.getCol cv.1)) = true) ∧
        ∀ cv ∈ exc, (cv.2.contains (r.getCol cv.1)) = false := by
  unfold filter_dataframe
  rw [mem_applyExcludeFilters, mem_applyIncludeFilters]
  tauto

theorem all_of_perm {α : Type} (p : α → Bool) {l l' : List α} (h : l.Perm l') :
    l.all p = l'.all p := by
  induction h with
  | nil => rfl
  | cons x _ ih => simp only [List.all_cons, ih]
  | swap x y l =>
    simp only [List.all_cons, ← Bool.and_assoc]
    rw [Bool.and_comm (p y) (p x)]
  | trans _ _ ih1 ih2 => rw [ih1, ih2]

theorem applyIncludeFilters_eq_filter (df : List SentencingRow) (fs : List ColFilter) :
    applyIncludeFilters df fs =
      df.filter (fun r => fs.all (fun cv => cv.2.contains (r.getCol cv.1))) := by
  induction fs generalizing df with
  | nil => simp [applyIncludeFilters]
  | cons cv fs ih =>
    simp only [applyIncludeFilters, List.foldl_cons] at *
    rw [ih, List.filter_filter]
    apply List.filter_congr
    intro r _
    simp [Bool.and_comm]

theorem applyExcludeFilters_eq_filter (df : List SentencingRow) (fs : List ColFilter) :
    applyExcludeFilters df fs =
      df.filter (fun r => fs.all (fun cv => !cv.2.contains (r.getCol cv.1))) := by
  induction fs generalizing df with
  | nil => simp [applyExcludeFilters]
  | cons cv fs ih =>
    simp only [applyExcludeFilters, List.foldl_cons] at *
    rw [ih, List.filter_filter]
    apply List.filter_congr
    intro r _
    simp [Bool.and_comm]

theorem filter_dataframe_eq_filter (df : List SentencingRow) (inc exc : List ColFilter) :
    filter_dataframe df inc exc =
      df.filter (fun r =>
        inc.all (fun cv => cv.2.contains (r.getCol cv.1)) &&
          exc.all (fun cv => !cv.2.contains (r.getCol cv.1))) := by
  unfold filter_dataframe
  rw [applyIncludeFilters_eq_filter, applyExcludeFilters_eq_filter, List.filter_filter]
  apply List.filter_congr
  intro r _
  simp [Bool.and_comm]

/-- C4: a row survives filter_dataframe under the configured
outcomes_by_offence_filter value exactly when it is an input row whose sex,
outcome and age_group lie in the configured include sets and whose PFA is not
in the configured exclude set; in particular every input row passing all the
configured filters is retained. -/
theorem C4_filter_dataframe_membership (df : List SentencingRow) (r : SentencingRow) :
    r ∈ filter_dataframe df outcomes_by_offence_filter_include
        outcomes_by_offence_filter_exclude ↔
      r ∈ df ∧ r.sex ∈ (["Female"] : List String) ∧
        r.outcome ∈
          (["Immediate Custody", "Community Sentence", "Suspended Sentence"] : List String) ∧
        r.age_group ∈ (["Adults", "Young adults"] : List String) ∧
        r.pfa ∉ (["Not known"] : List String) := by
  rw [mem_filter_dataframe]
  simp only [outcomes_by_offence_filter_include, outcomes_by_offence_filter_exclude,
    List.forall_mem_cons, List.forall_mem_nil, and_true, SentencingRow.getCol]
  simp
  tauto

/-- C8: the include and exclude set-membership filters commute: reordering
the include filters and the exclude filters in any way, or running the
exclude pass before the include pass, yields the same filtered table, which
equals a single filter by the conjunction of all the membership conditions. -/
theorem C8_filters_commute (df : List SentencingRow) (inc inc' exc exc' : List ColFilter)
    (hinc : inc.Perm inc') (hexc : exc.Perm exc') :
    filter_dataframe df inc exc = filter_dataframe df inc' exc' ∧
      filter_dataframe df inc exc = applyIncludeFilters (applyExcludeFilters df exc) inc ∧
      filter_dataframe df inc exc =
        df.filter (fun r =>
          inc.all (fun cv => cv.2.contains (r.getCol cv.1)) &&
            exc.all (fun cv => !cv.2.contains (r.getCol cv.1))) := by
  refine ⟨?_, ?_, filter_dataframe_eq_filter df inc exc⟩
  · rw [filter_dataframe_eq_filter, filter_dataframe_eq_filter]
    apply List.filter_congr
    intro r _
    rw [all_of_perm _ hinc, all_of_perm _ hexc]
  · rw [filter_dataframe_eq_filter, applyIncludeFilters_eq_filter,
      applyExcludeFilters_eq_filter, List.filter_filter]

/-- Witness for C8 at a concrete table and a concrete reordering of the
configured filters. -/
theorem C8_filters_commute_witness :
    (outcomes_by_offence_filter_include.Perm
        [("outcome", ["Immediate Custody", "Community Sentence", "Suspended Sentence"]),
         ("sex", ["Female"]), ("age_group", ["Adults", "Young adults"])] ∧
      outcomes_by_offence_filter_exclude.Perm outcomes_by_offence_filter_exclude) ∧
      (filter_dataframe
          [{ year := 2010, pfa := "Gwent", sex := "Female", age_group := "Adults",
             offence := "Drug offences", outcome := "Immediate Custody",
             sentence_len := "Less than 6 months", freq := 5 }]
          outcomes_by_offence_filter_include outcomes_by_offence_filter_exclude =
        filter_dataframe
          [{ year := 2010, pfa := "Gwent", sex := "Female", age_group := "Adults",
             offence := "Drug offences", outcome := "Immediate Custody",
             sentence_len := "Less than 6 months", freq := 5 }]
          [("outcome", ["Immediate Custody", "Community Sentence", "Suspended Sentence"]),
           ("sex", ["Female"]), ("age_group", ["Adults", "Young adults"])]
          outcomes_by_offence_filter_exclude ∧
        filter_dataframe
          [{ year := 2010, pfa := "Gwent", sex := "Female", age_group := "Adults",
             offence := "Drug offences", outcome := "Immediate Custody",
             sentence_len := "Less than 6 months", freq := 5 }]
          outcomes_by_offence_filter_include outcomes_by_offence_filter_exclude =
          applyIncludeFilters
            (applyExcludeFilters
              [{ year := 2010, pfa := "Gwent", sex := "Female", age_group := "Adults",
                 offence := "Drug offences", outcome := "Immediate Custody",
                 sentence_len := "Less than 6 months", freq := 5 }]
              outcomes_by_offence_filter_exclude)
            outcomes_by_offence_filter_include ∧
        filter_dataframe
          [{ year := 2010, pfa := "Gwent", sex := "Female", age_group := "Adults",
             offence := "Drug offences", outcome := "Immediate Custody",
             sentence_len := "Less than 6 months", freq := 5 }]
          outcomes_by_offence_filter_include outcomes_by_offence_filter_exclude =
          List.filter
            (fun r =>
              outcomes_by_offence_filter_include.all
                  (fun cv => cv.2.contains (r.getCol cv.1)) &&
                outcomes_by_offence_filter_exclude.all
                  (fun cv => !cv.2.contains (r.getCol cv.1)))
            [{ year := 2010, pfa := "Gwent", sex := "Female", age_group := "Adults",
               offence := "Drug offences", outcome := "Immediate Custody",
               sentence_len := "Less than 6 months", freq := 5 }]) :=
  ⟨⟨by decide, by decide⟩,
    C8_filters_commute _ _ _ _ _ (by decide) (by decide)⟩

/-- C10: request_to_gdf overwrites the output-format entry f of the caller's
query-params dictionary with geoJSON before issuing the request, so the
format actually requested is always geoJSON — in particular never the json
value configured in ons_pfa_params — and the overwrite is visible in the
caller's dictionary after the call. -/
theorem C10_request_to_gdf_forces_geojson (url : String) (d : List (String × String)) :
    dictGet (request_to_gdf url d).1.params "f" = some "geoJSON" ∧
      (request_to_gdf url d).2 = (request_to_gdf url d).1.params ∧
      dictGet (request_to_gdf url d).2 "f" = some "geoJSON" ∧
      dictGet ons_pfa_params "f" = some "json" ∧
      dictGet (request_to_gdf url ons_pfa_params).1.params "f" ≠ some "json" := by
  refine ⟨dictGet_dictSet d "f" "geoJSON", rfl, dictGet_dictSet d "f" "geoJSON",
    by decide, ?_⟩
  have h : dictGet (request_to_gdf url ons_pfa_params).1.params "f" = some "geoJSON" :=
    dictGet_dictSet ons_pfa_params "f" "geoJSON"
  rw [h]
  decide

/-! ## Grouping sentence outcomes by (PFA, year, outcome) -/

/-- Key of the sentence-outcomes grouping: (PFA, year, outcome). -/
def outcomeKey (r : SentencingRow) : String × Int × String := (r.pfa, r.year, r.outcome)

/-- One row of the aggregated sentence-outcomes dataset. -/
structure OutcomeGroupRow where
  pfa : String
  year : Int
  outcome : String
  total : Nat
deriving DecidableEq, Repr

/-- Modelled from the spec: group_pfa_sentence_outcome.py is not in the
repository snapshot (only its documentation is).  Per the spec, it groups
the filtered interim dataset by (PFA, year, outcome) and sums the count
column, producing one total per key present in the data. -/
def group_pfa_sentence_outcome (df : List SentencingRow) : List OutcomeGroupRow :=
  ((df.map outcomeKey).dedup).map (fun k =>
    { pfa := k.1, year := k.2.1, outcome := k.2.2,
      total := ((df.filter (fun r => decide (outcomeKey r = k))).map
        (fun r => r.freq)).sum })

theorem sum_filter_add_sum_filter_not {α : Type} (p : α → Bool) (f : α → Nat) :
    ∀ l : List α,
      ((l.filter p).map f).sum + ((l.filter (fun x => !p x)).map f).sum = (l.map f).sum := by
  intro l
  induction l with
  | nil => simp
  | cons x xs ih =>
    cases h : p x <;> simp [List.filter_cons, h] <;> omega

theorem sum_over_keys {α κ : Type} [DecidableEq κ] (key : α → κ) (f : α → Nat) :
    ∀ (ks : List κ), ks.Nodup → ∀ l : List α, (∀ x ∈ l, key x ∈ ks) →
      (ks.map (fun k => ((l.filter (fun x => decide (key x = k))).map f).sum)).sum
        = (l.map f).sum := by
  intro ks
  induction ks with
  | nil =>
    intro _ l hl
    cases l with
    | nil => simp
    | cons x xs => exact absurd (hl x (List.mem_cons_self x xs)) (by simp)
  | cons k ks ih =>
    intro hnd l hl
    have hk : k ∉ ks := (List.nodup_cons.mp hnd).1
    have hnd' : ks.Nodup := (List.nodup_cons.mp hnd).2
    simp only [List.map_cons, List.sum_cons]
    have hrest :
        (ks.map (fun k' => ((l.filter (fun x => decide (key x = k'))).map f).sum)).sum
          = (ks.map (fun k' =>
              (((l.filter (fun x => !decide (key x = k))).filter
                  (fun x => decide (key x = k'))).map f).sum)).sum := by
      apply congrArg
      apply List.map_congr_left
      intro k' hk'
      have hkk' : k' ≠ k := fun h => hk (h ▸ hk')
      rw [List.filter_filter]
      apply congrArg
      apply congrArg
      apply List.filter_congr
      intro x _
      by_cases hx : key x = k'
      · simp [hx, hkk']
      · simp [hx]
    rw [hrest, ih hnd' (l.filter (fun x => !decide (key x = k)))
      (fun x hx => by
        rcases List.mem_filter.mp hx with ⟨hxl, hxk⟩
        rcases List.mem_cons.mp (hl x hxl) with h | h
        · rw [h] at hxk
          simp at hxk
        · exact h)]
    exact sum_filter_add_sum_filter_not (fun x => decide (key x = k)) f l

/-- C5: grouping the normalized sentencing rows by (PFA, year, outcome) is
count-conserving — the grouped totals sum to the same value as the count
column of the input table. -/
theorem C5_grouping_count_conserving (df : List SentencingRow) :
    ((group_pfa_sentence_outcome df).map (fun g => g.total)).sum
      = (df.map (fun r => r.freq)).sum := by
  unfold group_pfa_sentence_outcome
  rw [List.map_map]
  exact sum_over_keys outcomeKey (fun r => r.freq) ((df.map outcomeKey).dedup)
    (List.nodup_dedup _) df
    (fun x hx => List.mem_dedup.mpr (List.mem_map_of_mem outcomeKey hx))

/-! ## Geography: LA to PFA mapping, matching with an audit side-channel -/

/-- One row of the LA to PFA lookup table. -/
structure GeoMapping where
  la_code : String
  la_name : String
  pfa_code : String
  pfa_name : String
deriving DecidableEq, Repr

/-- One interim population row keyed by LA code. -/
structure LAPopRow where
  la_code : String
  year : Int
  population : Nat
deriving DecidableEq, Repr

/-- First mapping row carrying the given LA code, if any. -/
def lookupMapping (mapping : List GeoMapping) (code : String) : Option GeoMapping :=
  mapping.find? (fun m => m.la_code == code)

/-- Modelled from the spec: la_to_pfa_matching.py is not in the repository
snapshot (only its documentation is).  Per the spec failure policy, the merge
of LA-keyed data with the LA-to-PFA mapping produces the joined rows for
every LA code present in the mapping, and retains the rows whose LA code is
absent from the mapping in an unmatched audit side-channel instead of
silently dropping them. -/
def la_to_pfa_join (rows : List LAPopRow) (mapping : List GeoMapping) :
    List (LAPopRow × GeoMapping) × List LAPopRow :=
  (rows.filterMap (fun r => (lookupMapping mapping r.la_code).map (fun m => (r, m))),
   rows.filter (fun r => (lookupMapping mapping r.la_code).isNone))

theorem length_matched_add_unmatched {α β : Type} (f : α → Option β) :
    ∀ l : List α,
      (l.filterMap (fun r => (f r).map (fun m => (r, m)))).length
        + (l.filter (fun r => (f r).isNone)).length = l.length := by
  intro l
  induction l with
  | nil => rfl
  | cons x xs ih =>
    cases h : f x <;> simp [List.filterMap_cons, List.filter_cons, h] <;> omega

theorem la_to_pfa_join_length (rows : List LAPopRow) (mapping : List GeoMapping) :
    (la_to_pfa_join rows mapping).1.length + (la_to_pfa_join rows mapping).2.length
      = rows.length :=
  length_matched_add_unmatched (fun (r : LAPopRow) => lookupMapping mapping r.la_code) rows

/-- C2: an LA code present in the data but absent from the mapping is
retained in the unmatched audit side-channel rather than silently dropped, a
joined row is still produced for every matched row, and the input row count
equals matched plus unmatched output row count. -/
theorem C2_unmatched_audit (rows : List LAPopRow) (mapping : List GeoMapping)
    (r : LAPopRow) (hr : r ∈ rows) :
    (lookupMapping mapping r.la_code = none → r ∈ (la_to_pfa_join rows mapping).2) ∧
      (∀ m : GeoMapping, lookupMapping mapping r.la_code = some m →
        (r, m) ∈ (la_to_pfa_join rows mapping).1) ∧
      (la_to_pfa_join rows mapping).1.length + (la_to_pfa_join rows mapping).2.length
        = rows.length := by
  refine ⟨fun h => ?_, fun m h => ?_, la_to_pfa_join_length rows mapping⟩
  · exact List.mem_filter.mpr ⟨hr, by rw [h]; rfl⟩
  · exact List.mem_filterMap.mpr ⟨r, hr, by rw [h]; rfl⟩

/-- Concrete interim population rows for the C2 witness: an old-vintage
Somerset district code and the new-vintage Somerset unitary-authority code. -/
def c2Rows : List LAPopRow :=
  [{ la_code := "E07000189", year := 2020, population := 44 },
   { la_code := "E06000066", year := 2020, population := 55 }]

/-- Concrete new-vintage mapping for the C2 witness. -/
def c2Map : List GeoMapping :=
  [{ la_code := "E06000066", la_name := "Somerset",
     pfa_code := "E23000036", pfa_name := "Avon and Somerset" }]

/-- The unmatched row of the C2 witness. -/
def c2Row : LAPopRow := { la_code := "E07000189", year := 2020, population := 44 }

/-- Witness for C2: the old-vintage Somerset district code E07000189 is
absent from the new-vintage mapping and lands in the audit channel, and the
row counts are traceable. -/
theorem C2_unmatched_audit_witness :
    c2Row ∈ c2Rows ∧
      ((lookupMapping c2Map c2Row.la_code = none →
          c2Row ∈ (la_to_pfa_join c2Rows c2Map).2) ∧
        (∀ m : GeoMapping, lookupMapping c2Map c2Row.la_code = some m →
          (c2Row, m) ∈ (la_to_pfa_join c2Rows c2Map).1) ∧
        (la_to_pfa_join c2Rows c2Map).1.length + (la_to_pfa_join c2Rows c2Map).2.length
          = c2Rows.length) :=
  ⟨by decide, C2_unmatched_audit c2Rows c2Map c2Row (by decide)⟩

/-! ## Geography Reconciler cleaning step -/

/-- Leading-characters test on the character list (the model of the
startsWith test used on ONS geography codes). -/
def strStarts (s p : String) : Bool := p.data.isPrefixOf s.data

/-- Modelled from the spec: the canonicalization in la_to_pfa_matching.py —
the PFA name written with an ampersand is rewritten to its canonical
and-form. -/
def canonical_pfa_name (n : String) : String :=
  if n = "Devon & Cornwall" then "Devon and Cornwall" else n

/-- Modelled from the spec: the cleaning in la_to_pfa_matching.py — rows
whose LA code denotes an aggregate unit above LA level (E10 county and E11
metropolitan-county codes) are dropped, the City of London row is dropped,
and PFA names are canonicalized. -/
def la_to_pfa_clean (m : List GeoMapping) : List GeoMapping :=
  (m.filter (fun r => !(strStarts r.la_code "E10") && !(strStarts r.la_code "E11")
      && !(r.la_name == "City of London"))).map
    (fun r => { r with pfa_name := canonical_pfa_name r.pfa_name })

theorem canonical_pfa_name_ne (n : String) :
    canonical_pfa_name n ≠ "Devon & Cornwall" := by
  unfold canonical_pfa_name
  split
  · decide
  · assumption

/-- C6: the cleaned mapping has no E10- or E11-coded rows, no City of London
row, and never renders the ampersand form of the Devon and Cornwall PFA
name; each surviving row comes from an input row with its PFA name
canonicalized. -/
theorem C6_geography_clean (m : List GeoMapping) (r : GeoMapping)
    (hr : r ∈ la_to_pfa_clean m) :
    strStarts r.la_code "E10" = false ∧ strStarts r.la_code "E11" = false ∧
      r.la_name ≠ "City of London" ∧ r.pfa_name ≠ "Devon & Cornwall" ∧
      ∃ r0 ∈ m, r = { r0 with pfa_name := canonical_pfa_name r0.pfa_name } := by
  rcases List.mem_map.mp hr with ⟨r0, hr0, hre⟩
  rcases List.mem_filter.mp hr0 with ⟨hr0m, hcond⟩
  simp only [Bool.and_eq_true, Bool.not_eq_true'] at hcond
  rcases hcond with ⟨⟨h10, h11⟩, hcol⟩
  subst hre
  refine ⟨h10, h11, ?_, canonical_pfa_name_ne r0.pfa_name, r0, hr0m, rfl⟩
  intro h
  rw [h] at hcol
  simp at hcol

/-- Witness for C6 at a concrete two-row lookup table containing a county
row, a City of London row and an ampersand-named PFA row. -/
theorem C6_geography_clean_witness :
    ({ la_code := "E06000052", la_name := "Cornwall",
       pfa_code := "E23000035", pfa_name := "Devon and Cornwall" } : GeoMapping) ∈
        la_to_pfa_clean
          [{ la_code := "E10000002", la_name := "Buckinghamshire",
             pfa_code := "E23000029", pfa_name := "Thames Valley" },
           { la_code := "E09000001", la_name := "City of London",
             pfa_code := "E23000034", pfa_name := "London, City of" },
           { la_code := "E06000052", la_name := "Cornwall",
             pfa_code := "E23000035", pfa_name := "Devon & Cornwall" }] ∧
      (strStarts
          ({ la_code := "E06000052", la_name := "Cornwall",
             pfa_code := "E23000035", pfa_name := "Devon and Cornwall" } : GeoMapping).la_code
          "E10" = false ∧
        strStarts
          ({ la_code := "E06000052", la_name := "Cornwall",
             pfa_code := "E23000035", pfa_name := "Devon and Cornwall" } : GeoMapping).la_code
          "E11" = false ∧
        ({ la_code := "E06000052", la_name := "Cornwall",
           pfa_code := "E23000035", pfa_name := "Devon and Cornwall" } : GeoMapping).la_name ≠
          "City of London" ∧
        ({ la_code := "E06000052", la_name := "Cornwall",
           pfa_code := "E23000035", pfa_name := "Devon and Cornwall" } : GeoMapping).pfa_name ≠
          "Devon & Cornwall" ∧
        ∃ r0 ∈
          ([{ la_code := "E10000002", la_name := "Buckinghamshire",
              pfa_code := "E23000029", pfa_name := "Thames Valley" },
            { la_code := "E09000001", la_name := "City of London",
              pfa_code := "E23000034", pfa_name := "London, City of" },
            { la_code := "E06000052", la_name := "Cornwall",
              pfa_code := "E23000035", pfa_name := "Devon & Cornwall" }] : List GeoMapping),
          ({ la_code := "E06000052", la_name := "Cornwall",
             pfa_code := "E23000035", pfa_name := "Devon and Cornwall" } : GeoMapping) =
            { r0 with pfa_name := canonical_pfa_name r0.pfa_name }) :=
  ⟨by decide, C6_geography_clean _ _ (by decide)⟩

/-! ## Imprisonment-rate table -/

/-- One aggregated custodial-count cell: women sentenced to immediate
custody in a PFA in a year. -/
structure CustodyAgg where
  pfa : String
  year : Int
  custodial_count : Nat
deriving DecidableEq, Repr

/-- Total adult-women population of a PFA in a year. -/
structure PfaPop where
  pfa : String
  year : Int
  population : Nat
deriving DecidableEq, Repr

/-- One row of the final imprisonment-rate table; population and rate are
optional because a PFA-year may have no matching population data. -/
structure RateRow where
  pfa : String
  year : Int
  custodial_count : Nat
  population : Option Nat
  rate_per_100k : Option ℚ
deriving DecidableEq, Repr

/-- Population figure for a (PFA, year) cell, when the PFA-year has matching
population rows. -/
def lookupPop (pops : List PfaPop) (pfa : String) (year : Int) : Option Nat :=
  (pops.find? (fun p => p.pfa == pfa && p.year == year)).map (fun p => p.population)

/-- Rate for one cell: missing when the population is absent or zero,
otherwise the custodial count per 100,000 women. -/
def rateCell (count : Nat) (pop : Option Nat) : Option ℚ :=
  match pop with
  | none => none
  | some p => if p = 0 then none else some ((count : ℚ) / (p : ℚ) * 100000)

/-- Modelled from the spec: combine_custody_pfa_population.py is not in the
repository snapshot (only its configured output filename is).  Per the spec,
every (PFA, year) cell of the custody table gets a row of the rate table;
the rate is custodial_count / population scaled to per-100,000, and it is
marked missing — never zero — when the population is zero, absent, or the
PFA had no matching rows. -/
def combine_custody_pfa_population (custody : List CustodyAgg) (pops : List PfaPop) :
    List RateRow :=
  custody.map (fun c =>
    { pfa := c.pfa, year := c.year, custodial_count := c.custodial_count,
      population := lookupPop pops c.pfa c.year,
      rate_per_100k := rateCell c.custodial_count (lookupPop pops c.pfa c.year) })

/-- C1: the rate table keeps a cell for every custody cell (nothing is
omitted), the cell's rate is missing exactly when its population is absent
(no matching rows) or zero — in particular it is then not zero — and
otherwise the rate equals custodial_count / population × 100,000. -/
theorem C1_rate_missing_not_zero (custody : List CustodyAgg) (pops : List PfaPop)
    (c : CustodyAgg) (hc : c ∈ custody) :
    (combine_custody_pfa_population custody pops).length = custody.length ∧
      ∃ row ∈ combine_custody_pfa_population custody pops,
        row.pfa = c.pfa ∧ row.year = c.year ∧ row.custodial_count = c.custodial_count ∧
          row.population = lookupPop pops c.pfa c.year ∧
          (row.rate_per_100k = none ↔
            row.population = none ∨ row.population = some 0) ∧
          ∀ p : Nat, row.population = some p → p ≠ 0 →
            row.rate_per_100k = some ((c.custodial_count : ℚ) / (p : ℚ) * 100000) := by
  refine ⟨List.length_map _ _, ?_⟩
  refine ⟨_, List.mem_map_of_mem _ hc, rfl, rfl, rfl, rfl, ?_, ?_⟩
  · simp only []
    cases hp : lookupPop pops c.pfa c.year with
    | none => simp [rateCell, hp]
    | some p =>
      by_cases hz : p = 0
      · simp [rateCell, hp, hz]
      · simp [rateCell, hp, hz]
  · intro p hp hz
    simp only [] at hp ⊢
    rw [hp] at *
    simp [rateCell, hp, hz]

/-- Concrete inputs for the C1 witness: one PFA-year with population 100000,
one with population 0 and custodial count 5, one with no population row. -/
def c1Custody : List CustodyAgg :=
  [{ pfa := "Gwent", year := 2010, custodial_count := 5 },
   { pfa := "Dyfed-Powys", year := 2010, custodial_count := 5 },
   { pfa := "Norfolk", year := 2010, custodial_count := 3 }]

/-- Concrete PFA population table for the C1 witness. -/
def c1Pops : List PfaPop :=
  [{ pfa := "Gwent", year := 2010, population := 100000 },
   { pfa := "Dyfed-Powys", year := 2010, population := 0 }]

/-- Witness for C1 at the zero-population cell of the concrete tables. -/
theorem C1_rate_missing_not_zero_witness :
    ({ pfa := "Dyfed-Powys", year := 2010, custodial_count := 5 } : CustodyAgg) ∈ c1Custody ∧
      ((combine_custody_pfa_population c1Custody c1Pops).length = c1Custody.length ∧
        ∃ row ∈ combine_custody_pfa_population c1Custody c1Pops,
          row.pfa = ({ pfa := "Dyfed-Powys", year := 2010, custodial_count := 5 } : CustodyAgg).pfa ∧
            row.year = ({ pfa := "Dyfed-Powys", year := 2010, custodial_count := 5 } : CustodyAgg).year ∧
            row.custodial_count =
              ({ pfa := "Dyfed-Powys", year := 2010, custodial_count := 5 } : CustodyAgg).custodial_count ∧
            row.population =
              lookupPop c1Pops
                ({ pfa := "Dyfed-Powys", year := 2010, custodial_count := 5 } : CustodyAgg).pfa
                ({ pfa := "Dyfed-Powys", year := 2010, custodial_count := 5 } : CustodyAgg).year ∧
            (row.rate_per_100k = none ↔
              row.population = none ∨ row.population = some 0) ∧
            ∀ p : Nat, row.population = some p → p ≠ 0 →
              row.rate_per_100k =
                some ((({ pfa := "Dyfed-Powys", year := 2010, custodial_count := 5 } : CustodyAgg).custodial_count : ℚ)
                  / (p : ℚ) * 100000)) :=
  ⟨by decide, C1_rate_missing_not_zero c1Custody c1Pops _ (by decide)⟩

/-! ## Publication tables: percentage change -/

/-- Percentage change between the first and last value of a series: missing
when the first value is zero, otherwise (last − first) / first × 100. -/
def pct_change (first last : ℚ) : Option ℚ :=
  if first = 0 then none else some ((last - first) / first * 100)

/-- One pivoted PFA × year series: the PFA and its per-year values in year
order. -/
structure PivotRow where
  pfa : String
  values : List ℚ
deriving DecidableEq, Repr

/-- Modelled from the spec: make_custody_tables.py is not in the repository
snapshot (only its documentation is).  Per the spec, the table builder
appends to each pivoted PFA × year series a rightmost column holding the
percentage change between the first and last year of the series. -/
def make_custody_table (rows : List PivotRow) : List (PivotRow × Option ℚ) :=
  rows.map (fun p => (p, pct_change (p.values.headD 0) (p.values.getLastD 0)))

/-- C2-style membership fact for C3: in the built table every appended
rightmost entry is missing when the first-year value is 0 and equals
(last − first) / first × 100 otherwise; the series [0, 10] yields missing. -/
theorem C3_pct_change_column (rows : List PivotRow) (pr : PivotRow × Option ℚ)
    (hpr : pr ∈ make_custody_table rows) :
    (pr.1.values.headD 0 = 0 → pr.2 = none) ∧
      (pr.1.values.headD 0 ≠ 0 →
        pr.2 = some ((pr.1.values.getLastD 0 - pr.1.values.headD 0)
          / pr.1.values.headD 0 * 100)) ∧
      make_custody_table [{ pfa := "Kent", values := [0, 10] }] =
        [({ pfa := "Kent", values := [0, 10] }, none)] := by
  rcases List.mem_map.mp hpr with ⟨p, _, hpe⟩
  subst hpe
  refine ⟨fun h => ?_, fun h => ?_, by decide⟩
  · have h' : p.values.headD 0 = 0 := h
    show pct_change (p.values.headD 0) (p.values.getLastD 0) = none
    unfold pct_change
    rw [if_pos h']
  · have h' : p.values.headD 0 ≠ 0 := h
    show pct_change (p.values.headD 0) (p.values.getLastD 0) = some _
    unfold pct_change
    rw [if_neg h']

/-- Witness for C3 at a table holding one zero-led and one nonzero-led
series. -/
theorem C3_pct_change_column_witness :
    (({ pfa := "Kent", values := [0, 10] } : PivotRow), (none : Option ℚ)) ∈
        make_custody_table
          [{ pfa := "Kent", values := [0, 10] },
           { pfa := "Gwent", values := [10, 15] }] ∧
      (((({ pfa := "Kent", values := [0, 10] } : PivotRow), (none : Option ℚ)).1.values.headD 0 = 0 →
          (({ pfa := "Kent", values := [0, 10] } : PivotRow), (none : Option ℚ)).2 = none) ∧
        ((({ pfa := "Kent", values := [0, 10] } : PivotRow), (none : Option ℚ)).1.values.headD 0 ≠ 0 →
          (({ pfa := "Kent", values := [0, 10] } : PivotRow), (none : Option ℚ)).2 =
            some (((({ pfa := "Kent", values := [0, 10] } : PivotRow), (none : Option ℚ)).1.values.getLastD 0 -
                (({ pfa := "Kent", values := [0, 10] } : PivotRow), (none : Option ℚ)).1.values.headD 0)
              / (({ pfa := "Kent", values := [0, 10] } : PivotRow), (none : Option ℚ)).1.values.headD 0 * 100)) ∧
        make_custody_table [{ pfa := "Kent", values := [0, 10] }] =
          [({ pfa := "Kent", values := [0, 10] }, none)]) :=
  ⟨by decide,
    C3_pct_change_column
      [{ pfa := "Kent", values := [0, 10] }, { pfa := "Gwent", values := [10, 15] }]
      _ (by decide)⟩

/-! ## Population Normalizer -/

/-- One raw ONS mid-year population-estimate row (by LA, sex, single-year
age). -/
structure PopulationRecord where
  year : Int
  la_code : String
  la_name : String
  sex : String
  age : Nat
  population : Nat
deriving DecidableEq, Repr

/-- One cleaned row: total adult-women population of an LA in a year. -/
structure LAYearPop where
  la_code : String
  year : Int
  population : Nat
deriving DecidableEq, Repr

/-- The demographic slice kept by the cleaning: women of adult age. -/
def isAdultWoman (r : PopulationRecord) : Bool :=
  r.sex == "Female" && decide (18 ≤ r.age)

/-- Key of the population aggregation: (LA code, year). -/
def popKey (r : PopulationRecord) : String × Int := (r.la_code, r.year)

/-- Modelled from the spec: ons_cleaning.py is not in the repository
snapshot (only its documentation is).  Per the spec, it filters to adult
women, aggregates all ages into one annual figure per LA, and surfaces the
minimum and maximum year present in the data. -/
def ons_cleaning (df : List PopulationRecord) :
    List LAYearPop × Option Int × Option Int :=
  let fd := df.filter isAdultWoman
  (((fd.map popKey).dedup).map (fun k =>
      { la_code := k.1, year := k.2,
        population := ((fd.filter (fun r => decide (popKey r = k))).map
          (fun r => r.population)).sum }),
   (fd.map (fun r => r.year)).min?,
   (fd.map (fun r => r.year)).max?)

/-- C9: the cleaned population table has exactly one row per (LA, year)
present among the adult-women input rows, each row's population is the sum
of the female population aged 18 and over for that LA and year, and the
surfaced values are exactly the minimum and maximum year present in the
filtered data. -/
theorem C9_ons_cleaning (df : List PopulationRecord) (g : LAYearPop)
    (hg : g ∈ (ons_cleaning df).1) :
    ((ons_cleaning df).1.map (fun gr => (gr.la_code, gr.year))).Nodup ∧
      g.population =
        ((df.filter (fun r => r.sex == "Female" && decide (18 ≤ r.age)
            && decide (r.la_code = g.la_code) && decide (r.year = g.year))).map
          (fun r => r.population)).sum ∧
      (∀ r ∈ df, r.sex = "Female" → 18 ≤ r.age →
        ∃ g2 ∈ (ons_cleaning df).1, g2.la_code = r.la_code ∧ g2.year = r.year) ∧
      (∀ y : Int, (ons_cleaning df).2.1 = some y ↔
        (y ∈ (df.filter isAdultWoman).map (fun r => r.year) ∧
          ∀ z ∈ (df.filter isAdultWoman).map (fun r => r.year), y ≤ z)) ∧
      (∀ y : Int, (ons_cleaning df).2.2 = some y ↔
        (y ∈ (df.filter isAdultWoman).map (fun r => r.year) ∧
          ∀ z ∈ (df.filter isAdultWoman).map (fun r => r.year), z ≤ y)) := by
  have anti : Std.Antisymm (fun (a b : Int) => a ≤ b) :=
    ⟨fun h h' => le_antisymm h h'⟩
  refine ⟨?_, ?_, ?_, ?_, ?_⟩
  · show (((((df.filter isAdultWoman).map popKey).dedup).map (fun k =>
      ({ la_code := k.1, year := k.2,
         population := (((df.filter isAdultWoman).filter
             (fun r => decide (popKey r = k))).map
           (fun r => r.population)).sum } : LAYearPop))).map
      (fun gr => (gr.la_code, gr.year))).Nodup
    rw [List.map_map]
    have he : ((fun (gr : LAYearPop) => (gr.la_code, gr.year)) ∘ (fun (k : String × Int) =>
        ({ la_code := k.1, year := k.2,
           population := (((df.filter isAdultWoman).filter
               (fun r => decide (popKey r = k))).map
             (fun r => r.population)).sum } : LAYearPop))) = id := rfl
    rw [he, List.map_id]
    exact List.nodup_dedup _
  · rcases List.mem_map.mp hg with ⟨k, _, hk⟩
    subst hk
    show (((df.filter isAdultWoman).filter (fun r => decide (popKey r = k))).map
        (fun r => r.population)).sum = _
    rw [List.filter_filter]
    apply congrArg
    apply congrArg
    apply List.filter_congr
    intro r _
    by_cases h1 : r.sex = "Female" <;> by_cases h2 : 18 ≤ r.age <;>
      by_cases h3 : r.la_code = k.1 <;> by_cases h4 : r.year = k.2 <;>
      simp [isAdultWoman, popKey, Prod.ext_iff, h1, h2, h3, h4]
  · intro r hr hsex hage
    have hmem : r ∈ df.filter isAdultWoman :=
      List.mem_filter.mpr ⟨hr, by simp [isAdultWoman, hsex, hage]⟩
    have hkey : popKey r ∈ ((df.filter isAdultWoman).map popKey).dedup :=
      List.mem_dedup.mpr (List.mem_map_of_mem popKey hmem)
    exact ⟨_, List.mem_map_of_mem _ hkey, rfl, rfl⟩
  · intro y
    show ((df.filter isAdultWoman).map (fun r => r.year)).min? = some y ↔ _
    exact List.min?_eq_some_iff (fun a => le_refl a) (fun a b => min_choice a b)
      (fun a b c => le_min_iff)
  · intro y
    show ((df.filter isAdultWoman).map (fun r => r.year)).max? = some y ↔ _
    exact List.max?_eq_some_iff (fun a => le_refl a) (fun a b => max_choice a b)
      (fun a b c => max_le_iff)

/-- Concrete raw population rows for the C9 witness: two adult-women rows in
one LA-year, one man, one child, and one adult woman in a later year. -/
def c9df : List PopulationRecord :=
  [{ year := 2020, la_code := "E06000066", la_name := "Somerset",
     sex := "Female", age := 30, population := 100 },
   { year := 2020, la_code := "E06000066", la_name := "Somerset",
     sex := "Female", age := 40, population := 200 },
   { year := 2020, la_code := "E06000066", la_name := "Somerset",
     sex := "Male", age := 35, population := 999 },
   { year := 2021, la_code := "E06000066", la_name := "Somerset",
     sex := "Female", age := 17, population := 50 },
   { year := 2021, la_code := "E06000066", la_name := "Somerset",
     sex := "Female", age := 18, population := 60 }]

/-- The aggregated 2020 row of the C9 witness. -/
def c9g : LAYearPop := { la_code := "E06000066", year := 2020, population := 300 }

/-- Witness for C9 at the concrete cleaned table. -/
theorem C9_ons_cleaning_witness :
    c9g ∈ (ons_cleaning c9df).1 ∧
      (((ons_cleaning c9df).1.map (fun gr => (gr.la_code, gr.year))).Nodup ∧
        c9g.population =
          ((c9df.filter (fun r => r.sex == "Female" && decide (18 ≤ r.age)
              && decide (r.la_code = c9g.la_code) && decide (r.year = c9g.year))).map
            (fun r => r.population)).sum ∧
        (∀ r ∈ c9df, r.sex = "Female" → 18 ≤ r.age →
          ∃ g2 ∈ (ons_cleaning c9df).1, g2.la_code = r.la_code ∧ g2.year = r.year) ∧
        (∀ y : Int, (ons_cleaning c9df).2.1 = some y ↔
          (y ∈ (c9df.filter isAdultWoman).map (fun r => r.year) ∧
            ∀ z ∈ (c9df.filter isAdultWoman).map (fun r => r.year), y ≤ z)) ∧
        (∀ y : Int, (ons_cleaning c9df).2.2 = some y ↔
          (y ∈ (c9df.filter isAdultWoman).map (fun r => r.year) ∧
            ∀ z ∈ (c9df.filter isAdultWoman).map (fun r => r.year), z ≤ y))) :=
  ⟨by decide, C9_ons_cleaning c9df c9g (by decide)⟩

/-! ## Whole-pipeline determinism and idempotence -/

/-- The immutable input tables of one pipeline run. -/
structure PipelineInputs where
  sentencing : List SentencingRow
  population : List PopulationRecord
  mapping : List GeoMapping
deriving DecidableEq, Repr

/-- The output tables of one pipeline run. -/
structure PipelineOutputs where
  filtered : List SentencingRow
  outcome_totals : List OutcomeGroupRow
  mapping_clean : List GeoMapping
  la_pop : List LAYearPop
  min_year : Option Int
  max_year : Option Int
deriving DecidableEq, Repr

/-- Modelled from the spec: process_data.py is not in the repository
snapshot.  Per the spec the pipeline is a deterministic batch job running
the stages in dependency order over the input tables alone. -/
def runStages (i : PipelineInputs) : PipelineOutputs :=
  { filtered := filter_dataframe i.sentencing outcomes_by_offence_filter_include
      outcomes_by_offence_filter_exclude,
    outcome_totals := group_pfa_sentence_outcome
      (filter_dataframe i.sentencing outcomes_by_offence_filter_include
        outcomes_by_offence_filter_exclude),
    mapping_clean := la_to_pfa_clean i.mapping,
    la_pop := (ons_cleaning i.population).1,
    min_year := (ons_cleaning i.population).2.1,
    max_year := (ons_cleaning i.population).2.2 }

/-- State of the output store: the inputs plus the output tables currently
on disk, when any. -/
structure PipelineState where
  inputs : PipelineInputs
  outputs : Option PipelineOutputs
deriving DecidableEq, Repr

/-- Modelled from the spec: one pipeline run fully recomputes every output
from the inputs and overwrites whatever outputs the store held — it never
appends to them. -/
def run_pipeline (s : PipelineState) : PipelineState :=
  { s with outputs := some (runStages s.inputs) }

/-- C7: running the pipeline twice is the same as running it once, and runs
over identical inputs produce identical output tables — the outputs are a
deterministic function of the inputs alone, fully overwritten each run. -/
theorem C7_pipeline_idempotent (s t : PipelineState) (h : s.inputs = t.inputs) :
    run_pipeline (run_pipeline s) = run_pipeline s ∧
      (run_pipeline s).outputs = (run_pipeline t).outputs ∧
      (run_pipeline s).outputs = some (runStages s.inputs) := by
  refine ⟨rfl, ?_, rfl⟩
  show some (runStages s.inputs) = some (runStages t.inputs)
  rw [h]

/-- Concrete inputs for the C7 witness. -/
def c7Inputs : PipelineInputs :=
  { sentencing :=
      [{ year := 2010, pfa := "Gwent", sex := "Female", age_group := "Adults",
         offence := "Drug offences", outcome := "Immediate Custody",
         sentence_len := "Less than 6 months", freq := 5 }],
    population :=
      [{ year := 2010, la_code := "W06000022", la_name := "Newport",
         sex := "Female", age := 30, population := 100000 }],
    mapping :=
      [{ la_code := "W06000022", la_name := "Newport",
         pfa_code := "W15000002", pfa_name := "Gwent" }] }

/-- A store that has never been run. -/
def c7Fresh : PipelineState := { inputs := c7Inputs, outputs := none }

/-- Stale output tables left over from some earlier run. -/
def c7Junk : PipelineOutputs :=
  { filtered := [], outcome_totals := [], mapping_clean := [],
    la_pop := [], min_year := none, max_year := none }

/-- A store holding stale outputs from some earlier state. -/
def c7Stale : PipelineState := { inputs := c7Inputs, outputs := some c7Junk }

/-- Witness for C7: a fresh store and a stale store with the same inputs end
up with identical, fully recomputed outputs, and a second run changes
nothing. -/
theorem C7_pipeline_idempotent_witness :
    c7Fresh.inputs = c7Stale.inputs ∧
      (run_pipeline (run_pipeline c7Fresh) = run_pipeline c7Fresh ∧
        (run_pipeline c7Fresh).outputs = (run_pipeline c7Stale).outputs ∧
        (run_pipeline c7Fresh).outputs = some (runStages c7Fresh.inputs)) :=
  ⟨rfl, C7_pipeline_idempotent c7Fresh c7Stale rfl⟩

end WomensPFA
